import Mathlib

/-!
# Session token lifecycle of `src/controllers/user.controller.js`

A shallow embedding of `generateAccessAndRefreshTokens`, `loginUser`,
`logoutUser` and `refreshAccessToken`, followed by the properties of the
session-token lifecycle.

Conventions of the embedding:

* a JavaScript value that is a string, `undefined` or `null` is an
  `Option String` (`none` for `undefined`/`null`);
* an `async` handler is a function from the collection of account documents to
  a `Run`: what the promise settles to, the collection afterwards, and the
  account-store calls that were issued, in order;
* the collaborators that live outside the controller (the token codec, the
  password check, the failure of a store call) are parameters.
-/

namespace UserController

/-! ## Data model -/

/-- Account document of the `User` collection: the fields written by
`User.create` in `registerUser`, together with `_id` and `refreshToken`. -/
structure User where
  _id : Nat
  userName : String
  email : String
  fullName : String
  avatar : String
  coverImage : String
  password : String
  refreshToken : Option String
deriving DecidableEq

/-- Projection `.select("-password -refreshToken")` of an account document. -/
structure SelectedUser where
  _id : Nat
  userName : String
  email : String
  fullName : String
  avatar : String
  coverImage : String
deriving DecidableEq

/-- The projection `select("-password -refreshToken")`. -/
def select (u : User) : SelectedUser :=
  { _id := u._id, userName := u.userName, email := u.email, fullName := u.fullName,
    avatar := u.avatar, coverImage := u.coverImage }

/-- Failures of `jwt.verify`. -/
inductive JwtError where
  | TokenExpiredError
  | JsonWebTokenError
deriving DecidableEq

/-- What a handler can throw: an `ApiError(statusCode, message)`, a JavaScript
`TypeError`, an error of `jwt.verify`, or the rejection of an account-store
call. -/
inductive Thrown where
  | ApiError (statusCode : Nat) (message : String)
  | TypeError (message : String)
  | JwtError (error : JwtError)
  | StoreError
deriving DecidableEq

/-- Decoded payload of a token, of which the controller reads `_id` only
(`decodedToken?._id`). -/
structure JwtPayload where
  _id : Option Nat
deriving DecidableEq

/-- Collaborators of the controller that are defined outside of it: the two
token generators of the account document (`user.generateAccessToken()`,
`user.generateRefreshToken()`), `jwt.verify` under `REFRESH_TOKEN_SECRET`, and
the password check `user.isPasswordCorrect(password)`. The generators and the
verification read the clock. -/
structure Env where
  generateAccessToken : User → Nat → String
  generateRefreshToken : User → Nat → String
  verify : String → Nat → Except JwtError JwtPayload
  isPasswordCorrect : User → Option String → Bool

/-- Which account-store calls of a handler reject, one flag per call site:
`User.findOne` (loginUser), `User.findById` (refreshAccessToken),
`User.findById` and `user.save` inside `generateAccessAndRefreshTokens`,
`User.findById(...).select(...)` (loginUser) and `User.findByIdAndUpdate`
(logoutUser). -/
structure Faults where
  findOne : Bool
  findById : Bool
  genFindById : Bool
  genSave : Bool
  findByIdSelect : Bool
  findByIdAndUpdate : Bool
deriving DecidableEq

/-- No account-store call rejects. -/
def Faults.noFault : Faults :=
  { findOne := false, findById := false, genFindById := false, genSave := false,
    findByIdSelect := false, findByIdAndUpdate := false }

/-- An account-store call issued by a handler. -/
inductive StoreCall where
  | findOne (userName email : Option String)
  | findById (id : Option Nat)
  | save (id : Nat)
  | findByIdAndUpdate (id : Nat)
deriving DecidableEq

/-- Outcome of running a handler: the settled result, the collection afterwards
and the store calls issued. -/
structure Run (α : Type) where
  result : Except Thrown α
  db : List User
  calls : List StoreCall

/-- The object `{ accessToken, refreshToken }` returned by
`generateAccessAndRefreshTokens`. -/
structure TokenPair where
  accessToken : String
  refreshToken : String
deriving DecidableEq

/-- Reading a property of the returned object, as a destructuring pattern
does: a key the object does not have yields `undefined`. -/
def TokenPair.prop (p : TokenPair) (key : String) : Option String :=
  if key = "accessToken" then some p.accessToken
  else if key = "refreshToken" then some p.refreshToken
  else none

/-- The cookie options object `{ httpOnly: true, secure: true }`. -/
structure CookieOptions where
  httpOnly : Bool
  secure : Bool
deriving DecidableEq

/-- A call of `res.cookie(name, value, options)` or
`res.clearCookie(name, options)`. -/
inductive CookieOp where
  | cookie (name : String) (value : Option String) (options : CookieOptions)
  | clearCookie (name : String) (options : CookieOptions)
deriving DecidableEq

/-- The `data` argument of `new ApiResponse(statusCode, data, message)`. -/
inductive Data where
  | login (user : Option SelectedUser) (accessToken refreshToken : Option String)
  | tokens (accessToken refreshToken : Option String)
  | empty
deriving DecidableEq

/-- The value `new ApiResponse(statusCode, data, message)`. -/
structure ApiResponse where
  statusCode : Nat
  data : Data
  message : String
deriving DecidableEq

/-- The response built by `res.status(..).cookie(..) ... .json(..)`. -/
structure Response where
  status : Nat
  cookies : List CookieOp
  json : ApiResponse
deriving DecidableEq

/-- The part of `req.body` read by the session handlers. -/
structure Body where
  email : Option String
  userName : Option String
  password : Option String
  refreshToken : Option String
deriving DecidableEq

/-- The part of `req.cookies` read by the session handlers. -/
structure Cookies where
  refreshToken : Option String
deriving DecidableEq

/-- The object `req.user` set by the authentication middleware. -/
structure ReqUser where
  _id : Nat
deriving DecidableEq

/-- The request as the session handlers read it. -/
structure Request where
  cookies : Cookies
  body : Body
  user : Option ReqUser
deriving DecidableEq

/-! ## JavaScript operators -/

/-- JavaScript truthiness of a string-or-undefined value: `undefined` and the
empty string are falsy. -/
def truthy : Option String → Bool
  | some s => !(s == "")
  | none => false

/-- JavaScript `a || b`. -/
def jsOr (a b : Option String) : Option String :=
  if truthy a then a else b

/-- The call `jwt.verify(token, process.env.REFRESH_TOKEN_SECRET)`: a token
that is not a string is rejected, a string goes to the codec. -/
def jwtVerify (env : Env) (token : Option String) (now : Nat) : Except JwtError JwtPayload :=
  match token with
  | none => .error .JsonWebTokenError
  | some t => env.verify t now

/-! ## Account store -/

/-- Modelled from the spec: `User.findById` of `models/user.model.js`, the
store's `findById(id) -> Account|absent`; the document whose `_id` is `id`. -/
def findById (db : List User) (id : Option Nat) : Option User :=
  db.find? (fun d => some d._id == id)

/-- Modelled from the spec: `User.findOne({ $or: [{ userName }, { email }] })`
of `models/user.model.js`, the store's `findByIdentifier`; the first document
whose `userName` or whose `email` is the one given. -/
def findOne (db : List User) (userName email : Option String) : Option User :=
  db.find? (fun d => userName == some d.userName || email == some d.email)

/-- Writing `value` to the field `refreshToken` of the document `id`. -/
def setRefreshToken (db : List User) (id : Nat) (value : Option String) : List User :=
  db.map (fun d => if d._id = id then { d with refreshToken := value } else d)

/-- Modelled from the spec: `user.save({ validateBeforeSave: false })` of
`models/user.model.js` after the assignment `user.refreshToken = ...`; the
modified path `refreshToken` is written to the document with the same `_id`. -/
def save (db : List User) (user : User) : List User :=
  setRefreshToken db user._id user.refreshToken

/-- The Mongoose call `User.findByIdAndUpdate(id, { $set: { refreshToken } })`.
Mongoose (version 6 and later) removes a key whose value is `undefined` from an
update before sending it, so an update whose only key is `undefined` writes
nothing; a string is written to the field `refreshToken` of the document
`id`. -/
def findByIdAndUpdate (db : List User) (id : Nat) (refreshToken : Option String) : List User :=
  match refreshToken with
  | none => db
  | some token => setRefreshToken db id (some token)

/-! ## The controller -/

/-- The cookie options of the three handlers. -/
def options : CookieOptions := { httpOnly := true, secure := true }

/-- The error thrown by the `catch` of `generateAccessAndRefreshTokens`. -/
def generateError : Thrown :=
  .ApiError 500 "Something went wrong while generating referesh and access token"

/-- `generateAccessAndRefreshTokens(userId)`, lines 8-22. Every exception of the
`try` block (a rejected store call, or calling a method on the `null` returned
by `findById`) is replaced by `ApiError(500, ...)`. -/
def generateAccessAndRefreshTokens (env : Env) (now : Nat) (f : Faults) (userId : Nat)
    (db : List User) : Run TokenPair :=
  let c1 := [StoreCall.findById (some userId)]
  if f.genFindById then ⟨.error generateError, db, c1⟩
  else
    match findById db (some userId) with
    | none => ⟨.error generateError, db, c1⟩
    | some user =>
      let accessToken := env.generateAccessToken user now
      let refreshToken := env.generateRefreshToken user now
      let user := { user with refreshToken := some refreshToken }
      let c2 := c1 ++ [StoreCall.save user._id]
      if f.genSave then ⟨.error generateError, db, c2⟩
      else ⟨.ok { accessToken := accessToken, refreshToken := refreshToken }, save db user, c2⟩

/-- `loginUser`, lines 158-219. -/
def loginUser (env : Env) (now : Nat) (f : Faults) (req : Request) (db : List User) :
    Run Response :=
  let email := req.body.email
  let userName := req.body.userName
  let password := req.body.password
  if !truthy userName && !truthy email then
    ⟨.error (.ApiError 400 "username or email is required"), db, []⟩
  else
    let c1 := [StoreCall.findOne userName email]
    if f.findOne then ⟨.error .StoreError, db, c1⟩
    else
      match findOne db userName email with
      | none => ⟨.error (.ApiError 404 "User does not exist"), db, c1⟩
      | some user =>
        let isPasswordValid := env.isPasswordCorrect user password
        if !isPasswordValid then
          ⟨.error (.ApiError 401 "Invalid user credentials"), db, c1⟩
        else
          let g := generateAccessAndRefreshTokens env now f user._id db
          match g.result with
          | .error e => ⟨.error e, g.db, c1 ++ g.calls⟩
          | .ok pair =>
            let accessToken := pair.prop "accessToken"
            let refreshToken := pair.prop "refreshToken"
            let c2 := c1 ++ g.calls ++ [StoreCall.findById (some user._id)]
            if f.findByIdSelect then ⟨.error .StoreError, g.db, c2⟩
            else
              let loggedInUser := (findById g.db (some user._id)).map select
              ⟨.ok
                { status := 200
                  cookies := [.cookie "accessToken" accessToken options,
                              .cookie "refreshToken" refreshToken options]
                  json :=
                    { statusCode := 200
                      data := .login loggedInUser accessToken refreshToken
                      message := "User logged In Successfully" } },
                g.db, c2⟩

/-- `logoutUser`, lines 221-244. The update document is
`{ $set: { refreshToken: undefined } }`. Reading `req.user._id` when the
middleware has not set `req.user` is a `TypeError`. -/
def logoutUser (f : Faults) (req : Request) (db : List User) : Run Response :=
  match req.user with
  | none => ⟨.error (.TypeError "Cannot read properties of undefined (reading _id)"), db, []⟩
  | some user =>
    let c1 := [StoreCall.findByIdAndUpdate user._id]
    if f.findByIdAndUpdate then ⟨.error .StoreError, db, c1⟩
    else
      ⟨.ok
        { status := 200
          cookies := [.clearCookie "accessToken" options, .clearCookie "refreshToken" options]
          json := { statusCode := 200, data := .empty, message := "User logged out successfully" } },
        findByIdAndUpdate db user._id none, c1⟩

/-- The `try` block of `refreshAccessToken`, lines 253-286. The pattern
`{ newAccessToken, newRefreshToken }` reads the properties of these names from
the object returned by `generateAccessAndRefreshTokens`. -/
def refreshTry (env : Env) (now : Nat) (f : Faults) (incomingRefreshToken : Option String)
    (db : List User) : Run Response :=
  match jwtVerify env incomingRefreshToken now with
  | .error e => ⟨.error (.JwtError e), db, []⟩
  | .ok decodedToken =>
    let c1 := [StoreCall.findById decodedToken._id]
    if f.findById then ⟨.error .StoreError, db, c1⟩
    else
      match findById db decodedToken._id with
      | none => ⟨.error (.ApiError 401 "Invalid refresh token"), db, c1⟩
      | some user =>
        if incomingRefreshToken ≠ user.refreshToken then
          ⟨.error (.ApiError 401 "Refesh token is expired"), db, c1⟩
        else
          let g := generateAccessAndRefreshTokens env now f user._id db
          match g.result with
          | .error e => ⟨.error e, g.db, c1 ++ g.calls⟩
          | .ok pair =>
            let newAccessToken := pair.prop "newAccessToken"
            let newRefreshToken := pair.prop "newRefreshToken"
            ⟨.ok
              { status := 200
                cookies := [.cookie "accessToken" newAccessToken options,
                            .cookie "refreshToken" newRefreshToken options]
                json :=
                  { statusCode := 200
                    data := .tokens newAccessToken newRefreshToken
                    message := "Access Token refreshed successfully." } },
              g.db, c1 ++ g.calls⟩

/-- The `catch (error)` clause of `refreshAccessToken`, line 288:
`throw new ApiError(401, Error?.message("Invalid refresh token."))`. The global
`Error` is not nullish and has no property `message`, so the argument calls
`undefined`: a `TypeError` is raised before the `ApiError` is constructed. -/
def refreshCatch (_error : Thrown) : Thrown :=
  .TypeError "Error.message is not a function"

/-- `refreshAccessToken`, lines 246-290. -/
def refreshAccessToken (env : Env) (now : Nat) (f : Faults) (req : Request) (db : List User) :
    Run Response :=
  let incomingRefreshToken := jsOr req.cookies.refreshToken req.body.refreshToken
  if !truthy incomingRefreshToken then
    ⟨.error (.ApiError 401 "Unauthorized request"), db, []⟩
  else
    let r := refreshTry env now f incomingRefreshToken db
    match r.result with
    | .ok res => ⟨.ok res, r.db, r.calls⟩
    | .error e => ⟨.error (refreshCatch e), r.db, r.calls⟩

/-! ## A concrete instance

Two accounts and a small codec, on which the handlers are evaluated. The codec
mints `r0`/`a0` at time `0` and `r1`/`a1` later; `r0` expires after time `10`,
`r9` is a well-signed token whose subject has no account, and any other string
is rejected as malformed. -/

/-- An account holding the refresh token `r0`. -/
def alice : User :=
  { _id := 1, userName := "alice", email := "alice@example.com", fullName := "Alice",
    avatar := "alice.png", coverImage := "", password := "pw-alice",
    refreshToken := some "r0" }

/-- An account with no refresh token stored. -/
def bob : User :=
  { _id := 2, userName := "bob", email := "bob@example.com", fullName := "Bob",
    avatar := "bob.png", coverImage := "", password := "pw-bob",
    refreshToken := none }

/-- The sample collection. -/
def sampleDb : List User := [alice, bob]

/-- The sample codec and password check. -/
def sampleEnv : Env :=
  { generateAccessToken := fun _ now => if now = 0 then "a0" else "a1"
    generateRefreshToken := fun _ now => if now = 0 then "r0" else "r1"
    verify := fun token now =>
      if token = "r0" then
        (if now ≤ 10 then .ok { _id := some 1 } else .error .TokenExpiredError)
      else if token = "r1" then .ok { _id := some 1 }
      else if token = "r9" then .ok { _id := some 9 }
      else .error .JsonWebTokenError
    isPasswordCorrect := fun user password => password == some user.password }

/-- A request carrying `token` in the `refreshToken` cookie. -/
def refreshRequest (token : Option String) : Request :=
  { cookies := { refreshToken := token }
    body := { email := none, userName := none, password := none, refreshToken := none }
    user := none }

/-- A login request by user name. -/
def loginRequest (userName password : String) : Request :=
  { cookies := { refreshToken := none }
    body := { email := none, userName := some userName, password := some password,
              refreshToken := none }
    user := none }

/-- A request authenticated as account `id`. -/
def logoutRequest (id : Nat) : Request :=
  { cookies := { refreshToken := none }
    body := { email := none, userName := none, password := none, refreshToken := none }
    user := some { _id := id } }

/-- The faults in which only `user.save` of token issuance rejects. -/
def saveFault : Faults := { Faults.noFault with genSave := true }

/-! ## Frame of a store mutation -/

/-- The subject of the refresh token a request presents: the `_id` decoded by
`jwt.verify`, when the token verifies. -/
def refreshSubject (env : Env) (now : Nat) (req : Request) : Option Nat :=
  match jwtVerify env (jsOr req.cookies.refreshToken req.body.refreshToken) now with
  | .ok decodedToken => decodedToken._id
  | .error _ => none

/-- The collection `db2` differs from `db1` at most in the `refreshToken` field
of the documents whose `_id` is `target`: documents correspond one to one, each
keeps every other field, and a document with another `_id` is unchanged. -/
def Frame (target : Option Nat) (db1 db2 : List User) : Prop :=
  List.Forall₂
    (fun d1 d2 => { d2 with refreshToken := d1.refreshToken } = d1 ∧
      (some d1._id ≠ target → d2 = d1))
    db1 db2

/-! ## Lemmas on the account store -/

theorem frame_refl (target : Option Nat) (db : List User) : Frame target db db := by
  unfold Frame
  induction db with
  | nil => exact List.Forall₂.nil
  | cons d ds ih => exact List.Forall₂.cons ⟨rfl, fun _ => rfl⟩ ih

theorem frame_setRefreshToken (db : List User) (id : Nat) (r : Option String) :
    Frame (some id) db (setRefreshToken db id r) := by
  unfold Frame setRefreshToken
  induction db with
  | nil => exact List.Forall₂.nil
  | cons d ds ih =>
    refine List.Forall₂.cons ?_ ih
    by_cases h : d._id = id
    · subst h
      simp
    · simp [h]

theorem frame_save (db : List User) (user : User) :
    Frame (some user._id) db (save db user) :=
  frame_setRefreshToken db user._id user.refreshToken

theorem frame_findByIdAndUpdate (db : List User) (id : Nat) (r : Option String) :
    Frame (some id) db (findByIdAndUpdate db id r) := by
  cases r with
  | none => exact frame_refl _ _
  | some token => exact frame_setRefreshToken db id (some token)

theorem findById_id {db : List User} {id : Option Nat} {user : User}
    (h : findById db id = some user) : some user._id = id := by
  unfold findById at h
  have := List.find?_some h
  simpa using this

theorem findById_setRefreshToken (db : List User) (id : Nat) (r : Option String)
    (target : Option Nat) :
    findById (setRefreshToken db id r) target =
      (findById db target).map
        (fun d => if d._id = id then { d with refreshToken := r } else d) := by
  unfold findById setRefreshToken
  rw [List.find?_map]
  congr 2
  funext d
  by_cases h : d._id = id <;> simp [h]

/-- The lookup of `loginUser` resolves to an account of the collection that the
request names by user name or by email, when the request names no other
document. -/
theorem findOne_of_unique (db : List User) (userName email : Option String) (user : User)
    (hmem : user ∈ db)
    (hname : userName = some user.userName ∨ email = some user.email)
    (huniq : ∀ d ∈ db, (userName = some d.userName ∨ email = some d.email) → d = user) :
    findOne db userName email = some user := by
  unfold findOne
  cases h : db.find? (fun d => userName == some d.userName || email == some d.email) with
  | none =>
    have := List.find?_eq_none.mp h user hmem
    rcases hname with hn | hn <;> simp [hn] at this
  | some d =>
    have hd : d ∈ db := List.mem_of_find?_eq_some h
    have hp := List.find?_some h
    have : userName = some d.userName ∨ email = some d.email := by simpa using hp
    rw [huniq d hd this]

theorem findOne_findById {db : List User} {userName email : Option String} {user : User}
    (h : findOne db userName email = some user) :
    ∃ u0, findById db (some user._id) = some u0 ∧ u0._id = user._id := by
  have hmem : user ∈ db := List.mem_of_find?_eq_some h
  cases hf : findById db (some user._id) with
  | none =>
    unfold findById at hf
    have := List.find?_eq_none.mp hf user hmem
    simp at this
  | some u0 =>
    refine ⟨u0, rfl, ?_⟩
    have := findById_id hf
    simpa using this

theorem mem_setRefreshToken {db : List User} {id : Nat} {r : Option String} {d : User}
    (h : d ∈ setRefreshToken db id r) (hid : d._id = id) : d.refreshToken = r := by
  unfold setRefreshToken at h
  obtain ⟨d0, _, rfl⟩ := List.mem_map.mp h
  by_cases h0 : d0._id = id
  · simp [h0]
  · simp [h0] at hid

/-! ## Token issuance -/

theorem generate_frame (env : Env) (now : Nat) (f : Faults) (userId : Nat) (db : List User) :
    Frame (some userId) db (generateAccessAndRefreshTokens env now f userId db).db := by
  unfold generateAccessAndRefreshTokens
  by_cases h1 : f.genFindById = true
  · simp only [h1, if_true]
    exact frame_refl _ _
  · cases hu : findById db (some userId) with
    | none =>
      simp only [h1, hu]
      exact frame_refl _ _
    | some user =>
      have hid : user._id = userId := by simpa using findById_id hu
      by_cases h2 : f.genSave = true
      · simp only [h1, hu, h2, if_true]
        exact frame_refl _ _
      · simp only [h1, hu, h2]
        have := frame_save db { user with refreshToken := some (env.generateRefreshToken user now) }
        simpa [hid] using this

theorem generate_ok (env : Env) (now : Nat) (f : Faults) (userId : Nat) (db : List User)
    (u0 : User) (h1 : f.genFindById = false) (h2 : f.genSave = false)
    (hu : findById db (some userId) = some u0) :
    generateAccessAndRefreshTokens env now f userId db =
      ⟨.ok { accessToken := env.generateAccessToken u0 now,
             refreshToken := env.generateRefreshToken u0 now },
       setRefreshToken db userId (some (env.generateRefreshToken u0 now)),
       [StoreCall.findById (some userId), StoreCall.save userId]⟩ := by
  have hid : u0._id = userId := by simpa using findById_id hu
  simp [generateAccessAndRefreshTokens, h1, h2, hu, save, hid]

theorem generate_fault (env : Env) (now : Nat) (f : Faults) (userId : Nat) (db : List User)
    (h : f.genFindById = true ∨ f.genSave = true) :
    (generateAccessAndRefreshTokens env now f userId db).result = .error generateError ∧
      (generateAccessAndRefreshTokens env now f userId db).db = db := by
  unfold generateAccessAndRefreshTokens
  by_cases h1 : f.genFindById = true
  · simp [h1]
  · rcases h with h | h
    · exact absurd h h1
    · cases hu : findById db (some userId) <;> simp [h1, h, hu]

/-! ## Properties of the session handlers -/

/-- C6: when neither the `refreshToken` cookie nor the `refreshToken` field of
the body carries a non-empty token, `refreshAccessToken` throws
`ApiError(401, "Unauthorized request")`, issues no account-store call and leaves
the collection as it was. -/
theorem refreshAccessToken_without_token (env : Env) (now : Nat) (f : Faults) (req : Request)
    (db : List User) (hc : truthy req.cookies.refreshToken = false)
    (hb : truthy req.body.refreshToken = false) :
    refreshAccessToken env now f req db =
      ⟨.error (.ApiError 401 "Unauthorized request"), db, []⟩ := by
  simp [refreshAccessToken, jsOr, hc, hb]

theorem refreshAccessToken_without_token_witness :
    truthy (some "") = false ∧ truthy none = false ∧
    refreshAccessToken sampleEnv 1 Faults.noFault
        { cookies := { refreshToken := some "" }
          body := { email := none, userName := none, password := none, refreshToken := none }
          user := none } sampleDb =
      ⟨.error (.ApiError 401 "Unauthorized request"), sampleDb, []⟩ :=
  ⟨by decide, by decide,
    refreshAccessToken_without_token sampleEnv 1 Faults.noFault _ sampleDb (by decide) (by decide)⟩

/-- C5: a login request that supplies a user name or an email resolving to an
account whose password check rejects the credential throws
`ApiError(401, "Invalid user credentials")`; the collection is unchanged and the
only account-store call is the lookup (no token is issued, nothing is saved). -/
theorem loginUser_invalid_credential (env : Env) (now : Nat) (f : Faults) (req : Request)
    (db : List User) (user : User)
    (hid : truthy req.body.userName = true ∨ truthy req.body.email = true)
    (hf : f.findOne = false)
    (hfind : findOne db req.body.userName req.body.email = some user)
    (hpw : env.isPasswordCorrect user req.body.password = false) :
    loginUser env now f req db =
      ⟨.error (.ApiError 401 "Invalid user credentials"), db,
       [StoreCall.findOne req.body.userName req.body.email]⟩ := by
  have h0 : (!truthy req.body.userName && !truthy req.body.email) = false := by
    rcases hid with h | h <;> simp [h]
  simp [loginUser, h0, hf, hfind, hpw]

theorem loginUser_invalid_credential_witness :
    loginUser sampleEnv 1 Faults.noFault (loginRequest "alice" "wrong") sampleDb =
      ⟨.error (.ApiError 401 "Invalid user credentials"), sampleDb,
       [StoreCall.findOne (some "alice") none]⟩ :=
  loginUser_invalid_credential sampleEnv 1 Faults.noFault (loginRequest "alice" "wrong")
    sampleDb alice (Or.inl (by decide)) rfl (by decide) (by decide)

/-- C4: a login request that supplies a user name or an email resolving to an
account whose password check accepts the credential succeeds with status 200
when no store call rejects; the pair minted by the codec is returned in the two
cookies and in the body, and the refresh token stored on that account afterwards
is the refresh token of the returned pair, whatever was stored before. -/
theorem loginUser_success (env : Env) (now : Nat) (f : Faults) (req : Request)
    (db : List User) (user : User)
    (hid : truthy req.body.userName = true ∨ truthy req.body.email = true)
    (hf1 : f.findOne = false) (hf2 : f.genFindById = false) (hf3 : f.genSave = false)
    (hf4 : f.findByIdSelect = false)
    (hfind : findOne db req.body.userName req.body.email = some user)
    (hpw : env.isPasswordCorrect user req.body.password = true) :
    ∃ u0 : User, findById db (some user._id) = some u0 ∧
      (loginUser env now f req db).result =
        .ok { status := 200
              cookies := [.cookie "accessToken" (some (env.generateAccessToken u0 now)) options,
                          .cookie "refreshToken" (some (env.generateRefreshToken u0 now)) options]
              json :=
                { statusCode := 200
                  data := .login (some (select u0)) (some (env.generateAccessToken u0 now))
                            (some (env.generateRefreshToken u0 now))
                  message := "User logged In Successfully" } } ∧
      (findById (loginUser env now f req db).db (some user._id)).map User.refreshToken =
        some (some (env.generateRefreshToken u0 now)) ∧
      (∀ d ∈ (loginUser env now f req db).db, d._id = user._id →
        d.refreshToken = some (env.generateRefreshToken u0 now)) := by
  have h0 : (!truthy req.body.userName && !truthy req.body.email) = false := by
    rcases hid with h | h <;> simp [h]
  obtain ⟨u0, hu0, hid0⟩ := findOne_findById hfind
  have hg := generate_ok env now f user._id db u0 hf2 hf3 hu0
  have hfb : findById (setRefreshToken db user._id (some (env.generateRefreshToken u0 now)))
      (some user._id) =
      some { u0 with refreshToken := some (env.generateRefreshToken u0 now) } := by
    rw [findById_setRefreshToken, hu0]
    simp [hid0]
  refine ⟨u0, hu0, ?_, ?_, ?_⟩
  · simp [loginUser, h0, hf1, hfind, hpw, hg, hf4, hfb, TokenPair.prop, select]
  · simp [loginUser, h0, hf1, hfind, hpw, hg, hf4, hfb]
  · intro d hd hdid
    have hdb : (loginUser env now f req db).db =
        setRefreshToken db user._id (some (env.generateRefreshToken u0 now)) := by
      simp [loginUser, h0, hf1, hfind, hpw, hg, hf4]
    rw [hdb] at hd
    exact mem_setRefreshToken hd hdid

theorem loginUser_success_witness :
    ∃ u0 : User, findById sampleDb (some alice._id) = some u0 ∧
      (loginUser sampleEnv 1 Faults.noFault (loginRequest "alice" "pw-alice") sampleDb).result =
        .ok { status := 200
              cookies := [.cookie "accessToken" (some (sampleEnv.generateAccessToken u0 1)) options,
                          .cookie "refreshToken" (some (sampleEnv.generateRefreshToken u0 1)) options]
              json :=
                { statusCode := 200
                  data := .login (some (select u0)) (some (sampleEnv.generateAccessToken u0 1))
                            (some (sampleEnv.generateRefreshToken u0 1))
                  message := "User logged In Successfully" } } ∧
      (findById (loginUser sampleEnv 1 Faults.noFault (loginRequest "alice" "pw-alice") sampleDb).db
          (some alice._id)).map User.refreshToken =
        some (some (sampleEnv.generateRefreshToken u0 1)) ∧
      (∀ d ∈ (loginUser sampleEnv 1 Faults.noFault (loginRequest "alice" "pw-alice") sampleDb).db,
        d._id = alice._id → d.refreshToken = some (sampleEnv.generateRefreshToken u0 1)) :=
  loginUser_success sampleEnv 1 Faults.noFault (loginRequest "alice" "pw-alice") sampleDb alice
    (Or.inl (by decide)) rfl rfl rfl rfl (by decide) (by decide)

/-- Whatever the request and the faults, `logoutUser` leaves the collection as
it was: its update carries no key to write. -/
theorem logoutUser_db (f : Faults) (req : Request) (db : List User) :
    (logoutUser f req db).db = db := by
  unfold logoutUser
  split
  · rfl
  · dsimp only
    split <;> rfl

/-- C9 (failing input): `alice` stores `r0`; `logoutUser` for `alice` answers
200, and so does a second run, but the collection is the one before the call and
the account still stores `r0`: the refresh token is not cleared. -/
theorem logout_keeps_refresh_token :
    alice.refreshToken = some "r0" ∧
      logoutUser Faults.noFault (logoutRequest 1) sampleDb =
        ⟨.ok { status := 200
               cookies := [.clearCookie "accessToken" options,
                           .clearCookie "refreshToken" options]
               json := { statusCode := 200, data := .empty,
                         message := "User logged out successfully" } },
         sampleDb, [StoreCall.findByIdAndUpdate 1]⟩ ∧
      (findById (logoutUser Faults.noFault (logoutRequest 1) sampleDb).db (some 1)).map
          User.refreshToken = some (some "r0") ∧
      (findById
          (logoutUser Faults.noFault (logoutRequest 1)
            (logoutUser Faults.noFault (logoutRequest 1) sampleDb).db).db (some 1)).map
          User.refreshToken = some (some "r0") :=
  ⟨rfl, rfl, rfl, rfl⟩

/-- The collection after `loginUser` is the one before, or the one token
issuance produced for the account the lookup resolved to. -/
theorem loginUser_db (env : Env) (now : Nat) (f : Faults) (req : Request) (db : List User) :
    (loginUser env now f req db).db = db ∨
      ∃ user : User, (findOne db req.body.userName req.body.email).map User._id = some user._id ∧
        (loginUser env now f req db).db =
          (generateAccessAndRefreshTokens env now f user._id db).db := by
  unfold loginUser
  dsimp only
  split
  · exact Or.inl rfl
  · split
    · exact Or.inl rfl
    · split
      · exact Or.inl rfl
      · rename_i user hu
        split
        · exact Or.inl rfl
        · refine Or.inr ⟨user, by rw [hu]; rfl, ?_⟩
          split
          · rfl
          · split <;> rfl

/-- The collection after `refreshTry` is the one before, or the one token
issuance produced for the subject of the token. -/
theorem refreshTry_db (env : Env) (now : Nat) (f : Faults) (token : Option String)
    (db : List User) :
    (refreshTry env now f token db).db = db ∨
      ∃ user : User,
        (match jwtVerify env token now with
          | .ok decodedToken => decodedToken._id
          | .error _ => none) = some user._id ∧
        (refreshTry env now f token db).db =
          (generateAccessAndRefreshTokens env now f user._id db).db := by
  unfold refreshTry
  dsimp only
  split
  · exact Or.inl rfl
  · rename_i decodedToken hv
    split
    · exact Or.inl rfl
    · split
      · exact Or.inl rfl
      · rename_i user hu
        split
        · exact Or.inl rfl
        · refine Or.inr ⟨user, by rw [hv]; exact (findById_id hu).symm, ?_⟩
          split <;> rfl

/-- The collection after `refreshAccessToken` is the one before, or the one
token issuance produced for the subject of the presented token. -/
theorem refreshAccessToken_db (env : Env) (now : Nat) (f : Faults) (req : Request)
    (db : List User) :
    (refreshAccessToken env now f req db).db = db ∨
      ∃ user : User, refreshSubject env now req = some user._id ∧
        (refreshAccessToken env now f req db).db =
          (generateAccessAndRefreshTokens env now f user._id db).db := by
  unfold refreshAccessToken refreshSubject
  dsimp only
  split
  · exact Or.inl rfl
  · rcases refreshTry_db env now f (jsOr req.cookies.refreshToken req.body.refreshToken) db
      with h | ⟨user, hu, h⟩
    · refine Or.inl ?_
      split <;> exact h
    · refine Or.inr ⟨user, hu, ?_⟩
      split <;> exact h

/-- C10: whatever the request, the faults and the outcome, `loginUser`,
`refreshAccessToken` and `logoutUser` leave every document of the collection in
place with all its fields other than `refreshToken`, and leave every document
whose `_id` is not the one of the account concerned (the account the login
lookup resolves to, the subject of the presented refresh token, the
authenticated account) exactly as it was. -/
theorem session_handlers_frame (env : Env) (now : Nat) (f : Faults) (req : Request)
    (db : List User) :
    Frame ((findOne db req.body.userName req.body.email).map User._id) db
        (loginUser env now f req db).db ∧
      Frame (refreshSubject env now req) db (refreshAccessToken env now f req db).db ∧
      Frame (req.user.map ReqUser._id) db (logoutUser f req db).db := by
  refine ⟨?_, ?_, ?_⟩
  · rcases loginUser_db env now f req db with h | ⟨user, hu, h⟩
    · rw [h]
      exact frame_refl _ _
    · rw [h, hu]
      exact generate_frame env now f user._id db
  · rcases refreshAccessToken_db env now f req db with h | ⟨user, hu, h⟩
    · rw [h]
      exact frame_refl _ _
    · rw [h, hu]
      exact generate_frame env now f user._id db
  · unfold logoutUser
    cases hu : req.user with
    | none => exact frame_refl _ _
    | some user =>
      by_cases h1 : f.findByIdAndUpdate = true
      · simp only [h1, if_true]
        exact frame_refl _ _
      · simp only [h1, if_false, Option.map_some']
        exact frame_findByIdAndUpdate db user._id none

/-- C8 (as amended): when an account-store call of token issuance rejects (the
`findById` or the `save` inside `generateAccessAndRefreshTokens`),
`generateAccessAndRefreshTokens` throws `ApiError(500, ...)` for every account
id, and a `loginUser` that reached token issuance throws that same
`ApiError(500, ...)`; the collection is unchanged in both. -/
theorem issuance_failure_is_500 (env : Env) (now : Nat) (f : Faults) (req : Request)
    (db : List User) (user : User)
    (hfault : f.genFindById = true ∨ f.genSave = true)
    (hid : truthy req.body.userName = true ∨ truthy req.body.email = true)
    (hf : f.findOne = false)
    (hfind : findOne db req.body.userName req.body.email = some user)
    (hpw : env.isPasswordCorrect user req.body.password = true) :
    (∀ userId, (generateAccessAndRefreshTokens env now f userId db).result =
        .error (.ApiError 500 "Something went wrong while generating referesh and access token") ∧
        (generateAccessAndRefreshTokens env now f userId db).db = db) ∧
      (loginUser env now f req db).result =
        .error (.ApiError 500 "Something went wrong while generating referesh and access token") ∧
      (loginUser env now f req db).db = db := by
  have h0 : (!truthy req.body.userName && !truthy req.body.email) = false := by
    rcases hid with h | h <;> simp [h]
  have hg := generate_fault env now f user._id db hfault
  refine ⟨fun userId => generate_fault env now f userId db hfault, ?_, ?_⟩
  · simp [loginUser, h0, hf, hfind, hpw, hg.1, generateError]
  · simp [loginUser, h0, hf, hfind, hpw, hg.1, hg.2]

theorem issuance_failure_is_500_witness :
    (∀ userId, (generateAccessAndRefreshTokens sampleEnv 1 saveFault userId sampleDb).result =
        .error (.ApiError 500 "Something went wrong while generating referesh and access token") ∧
        (generateAccessAndRefreshTokens sampleEnv 1 saveFault userId sampleDb).db = sampleDb) ∧
      (loginUser sampleEnv 1 saveFault (loginRequest "alice" "pw-alice") sampleDb).result =
        .error (.ApiError 500 "Something went wrong while generating referesh and access token") ∧
      (loginUser sampleEnv 1 saveFault (loginRequest "alice" "pw-alice") sampleDb).db = sampleDb :=
  issuance_failure_is_500 sampleEnv 1 saveFault (loginRequest "alice" "pw-alice") sampleDb alice
    (Or.inr rfl) (Or.inl (by decide)) rfl (by decide) (by decide)

/-- C8 (counterexample): with `user.save` rejecting during token issuance, a
`refreshAccessToken` presenting the stored, verifying token `r0` does not throw
an `ApiError` of status 500: the 500 is caught by its own `catch` clause, whose
evaluation raises a `TypeError`. -/
theorem refresh_issuance_failure_not_500 :
    (refreshAccessToken sampleEnv 1 saveFault (refreshRequest (some "r0")) sampleDb).result =
        .error (.TypeError "Error.message is not a function") ∧
      ¬ ∃ message,
        (refreshAccessToken sampleEnv 1 saveFault (refreshRequest (some "r0")) sampleDb).result =
          .error (.ApiError 500 message) := by
  have h : (refreshAccessToken sampleEnv 1 saveFault (refreshRequest (some "r0")) sampleDb).result =
      .error (.TypeError "Error.message is not a function") := rfl
  refine ⟨h, ?_⟩
  rintro ⟨message, hm⟩
  rw [h] at hm
  cases hm

/-! ## The response of a successful refresh and the `catch` clause -/

/-- Whenever the `try` block of `refreshAccessToken` completes, both tokens it
puts into the cookies and the body are `undefined`. -/
theorem refreshTry_ok (env : Env) (now : Nat) (f : Faults) (token : Option String)
    (db : List User) (res : Response) (h : (refreshTry env now f token db).result = .ok res) :
    res.cookies = [.cookie "accessToken" none options, .cookie "refreshToken" none options] ∧
      res.json.data = .tokens none none := by
  unfold refreshTry at h
  dsimp only at h
  split at h
  · cases h
  · split at h
    · cases h
    · split at h
      · cases h
      · split at h
        · cases h
        · split at h
          · cases h
          · simp only [Except.ok.injEq] at h
            subst h
            simp [TokenPair.prop]

/-- Whenever `refreshAccessToken` succeeds, both tokens of its response are
`undefined`. -/
theorem refreshAccessToken_ok (env : Env) (now : Nat) (f : Faults) (req : Request)
    (db : List User) (res : Response)
    (h : (refreshAccessToken env now f req db).result = .ok res) :
    res.cookies = [.cookie "accessToken" none options, .cookie "refreshToken" none options] ∧
      res.json.data = .tokens none none := by
  unfold refreshAccessToken at h
  dsimp only at h
  split at h
  · cases h
  · split at h
    · rename_i res0 hr
      simp only [Except.ok.injEq] at h
      subst h
      exact refreshTry_ok env now f _ db res0 hr
    · cases h

/-- Whenever `refreshAccessToken` fails on a request that presents a non-empty
token, what it throws is the `TypeError` of its `catch` clause. -/
theorem refreshAccessToken_error (env : Env) (now : Nat) (f : Faults) (req : Request)
    (db : List User) (e : Thrown)
    (ht : truthy (jsOr req.cookies.refreshToken req.body.refreshToken) = true)
    (h : (refreshAccessToken env now f req db).result = .error e) :
    e = .TypeError "Error.message is not a function" := by
  unfold refreshAccessToken at h
  simp only [ht, Bool.not_true, Bool.false_eq_true, if_false] at h
  split at h
  · cases h
  · simp only [refreshCatch, Except.error.injEq] at h
    exact h.symm

/-- C1 (failing input): `alice` stores `r0`, which verifies at time `1`; the
refresh succeeds and stores the fresh token `r1` on the account, but the refresh
token and the access token it returns, in both cookies and in the body, are
`undefined`. -/
theorem refresh_returns_undefined_pair :
    alice.refreshToken = some "r0" ∧
      sampleEnv.verify "r0" 1 = .ok { _id := some 1 } ∧
      (refreshAccessToken sampleEnv 1 Faults.noFault (refreshRequest (some "r0")) sampleDb).result =
        .ok { status := 200
              cookies := [.cookie "accessToken" none options,
                          .cookie "refreshToken" none options]
              json := { statusCode := 200, data := .tokens none none,
                        message := "Access Token refreshed successfully." } } ∧
      (findById
          (refreshAccessToken sampleEnv 1 Faults.noFault (refreshRequest (some "r0")) sampleDb).db
          (some 1)).map User.refreshToken = some (some "r1") :=
  ⟨rfl, rfl, rfl, rfl⟩

/-- C2 (failing input): after a refresh at time `1` that presented `r0` and
succeeded, a refresh presenting `r0` again throws a `TypeError` and no
`ApiError` of status 401, and a refresh presenting what the first call returned
as the new refresh token (`undefined`, or the text `undefined` a cookie would
carry) fails instead of succeeding. -/
theorem rotation_after_refresh :
    (∃ res,
        (refreshAccessToken sampleEnv 1 Faults.noFault (refreshRequest (some "r0"))
          sampleDb).result = .ok res ∧ res.json.data = .tokens none none) ∧
      (refreshAccessToken sampleEnv 2 Faults.noFault (refreshRequest (some "r0"))
          (refreshAccessToken sampleEnv 1 Faults.noFault (refreshRequest (some "r0"))
            sampleDb).db).result = .error (.TypeError "Error.message is not a function") ∧
      (refreshAccessToken sampleEnv 2 Faults.noFault (refreshRequest none)
          (refreshAccessToken sampleEnv 1 Faults.noFault (refreshRequest (some "r0"))
            sampleDb).db).result = .error (.ApiError 401 "Unauthorized request") ∧
      (refreshAccessToken sampleEnv 2 Faults.noFault (refreshRequest (some "undefined"))
          (refreshAccessToken sampleEnv 1 Faults.noFault (refreshRequest (some "r0"))
            sampleDb).db).result = .error (.TypeError "Error.message is not a function") :=
  ⟨⟨_, rfl, rfl⟩, rfl, rfl, rfl⟩

/-- C3 (failing input): `r0` is valid for `alice` (stored, and verifying at
time `1`); `logoutUser` for `alice` answers 200 but leaves `r0` stored, so a
refresh presenting `r0` afterwards does not fail: it answers 200 and stores the
fresh token `r1` on the account. -/
theorem refresh_after_logout :
    alice.refreshToken = some "r0" ∧
      sampleEnv.verify "r0" 1 = .ok { _id := some 1 } ∧
      (∃ res, (logoutUser Faults.noFault (logoutRequest 1) sampleDb).result = .ok res ∧
        res.status = 200) ∧
      (refreshAccessToken sampleEnv 1 Faults.noFault (refreshRequest (some "r0"))
          (logoutUser Faults.noFault (logoutRequest 1) sampleDb).db).result =
        .ok { status := 200
              cookies := [.cookie "accessToken" none options,
                          .cookie "refreshToken" none options]
              json := { statusCode := 200, data := .tokens none none,
                        message := "Access Token refreshed successfully." } } ∧
      (findById
          (refreshAccessToken sampleEnv 1 Faults.noFault (refreshRequest (some "r0"))
            (logoutUser Faults.noFault (logoutRequest 1) sampleDb).db).db
          (some 1)).map User.refreshToken = some (some "r1") :=
  ⟨rfl, rfl, ⟨_, rfl, rfl⟩, rfl, rfl⟩

/-- C7 (failing inputs): an expired token (`r0` at time `11`), a malformed token,
a token whose subject has no account (`r9`) and a verifying token that differs
from the stored one (`r1` against `r0`) each leave the collection unchanged, but
each throws the `TypeError` of the `catch` clause, not an `ApiError` of status
401. -/
theorem refresh_rejections_throw_typeError :
    refreshAccessToken sampleEnv 11 Faults.noFault (refreshRequest (some "r0")) sampleDb =
        ⟨.error (.TypeError "Error.message is not a function"), sampleDb, []⟩ ∧
      refreshAccessToken sampleEnv 1 Faults.noFault (refreshRequest (some "garbage")) sampleDb =
        ⟨.error (.TypeError "Error.message is not a function"), sampleDb, []⟩ ∧
      refreshAccessToken sampleEnv 1 Faults.noFault (refreshRequest (some "r9")) sampleDb =
        ⟨.error (.TypeError "Error.message is not a function"), sampleDb,
         [StoreCall.findById (some 9)]⟩ ∧
      refreshAccessToken sampleEnv 1 Faults.noFault (refreshRequest (some "r1")) sampleDb =
        ⟨.error (.TypeError "Error.message is not a function"), sampleDb,
         [StoreCall.findById (some 1)]⟩ :=
  ⟨rfl, rfl, rfl, rfl⟩

end UserController
